import Mathlib

/-!
Shallow embedding of the appointment (Consulta) lifecycle, conflict detection
and authorization code of the lacrei-saude-api repository, together with
theorems settling the specification claims about it.

Conventions of the embedding:
* timestamps are natural numbers counting minutes (a `DateTimeField` value),
  `timezone.now()` becomes an explicit `now : Nat` parameter;
* `timezone.timedelta(minutes=d)` becomes addition of `d`;
* nullable columns become `Option`; Python falsiness of `None`/`Decimal 0`
  and of the empty string is modelled explicitly;
* the persisted table of appointments is a `List Consulta`; a save with
  `update_fields` persists exactly those columns;
* fallible code (raising `ValidationError` / returning 400) becomes
  `Except String`.
-/

namespace LacreiSaude

/-- Status choices of `Consulta` (consultas/models.py `STATUS_CHOICES`). -/
inductive Status
  | AGENDADA
  | CONFIRMADA
  | EM_ANDAMENTO
  | CONCLUIDA
  | CANCELADA
  | NAO_COMPARECEU
  | REMARCADA
deriving DecidableEq, Repr

/-- Appointment-type choices of `Consulta` (`TIPO_CONSULTA_CHOICES`). -/
inductive TipoConsulta
  | PRESENCIAL
  | TELECONSULTA
  | RETORNO
  | PRIMEIRA_CONSULTA
  | URGENCIA
deriving DecidableEq, Repr

/-- Choices of the `cancelado_por` field. -/
inductive CanceladoPor
  | PACIENTE
  | PROFISSIONAL
  | SISTEMA
deriving DecidableEq, Repr

/-- The slice of `profissionais.models.Profissional` the consulta code reads:
its primary key, active flag and listed default price.  Amounts are modelled
as `Nat` cents; the serializer rejects negative amounts so the nonnegative
domain is faithful. -/
structure Profissional where
  id : Nat
  is_active : Bool
  valor_consulta : Option Nat
deriving DecidableEq, Repr

/-- The `Consulta` row (consultas/models.py), restricted to the columns the
verified operations read or write.  `data_hora_fim` is nullable in the
schema; `cancelado_por` uses `none` for the blank default. -/
structure Consulta where
  id : Nat
  profissional : Nat
  data_hora : Nat
  duracao_estimada : Nat
  data_hora_fim : Option Nat
  tipo_consulta : TipoConsulta
  status : Status
  nome_paciente : String
  telefone_paciente : String
  email_paciente : String
  motivo_consulta : String
  observacoes : String
  observacoes_internas : String
  valor_consulta : Option Nat
  pago : Bool
  motivo_cancelamento : String
  cancelado_por : Option CanceladoPor
  data_cancelamento : Option Nat
  consulta_origem : Option Nat
  is_active : Bool
deriving DecidableEq, Repr

/-- Equality of `Except` results is decidable when both components are. -/
instance exceptDecEq {ε α : Type} [DecidableEq ε] [DecidableEq α] :
    DecidableEq (Except ε α)
  | .error e, .error f =>
    if h : e = f then .isTrue (by rw [h]) else .isFalse (by simp [h])
  | .error _, .ok _ => .isFalse (by simp)
  | .ok _, .error _ => .isFalse (by simp)
  | .ok a, .ok b =>
    if h : a = b then .isTrue (by rw [h]) else .isFalse (by simp [h])

/-- Python falsiness of a nullable decimal: `None` and `0` are falsy. -/
def valorFalsy : Option Nat → Bool
  | none => true
  | some v => v == 0

/-- `Consulta.clean` (models.py lines 127-148) as it actually executes;
`prof` is the row `self.profissional` refers to.  The method's first
branch, `if not self.pk and self.data_hora and self.data_hora <=
timezone.now(): raise "Data da consulta deve ser no futuro"` (lines
131-133), is dead code: `Consulta` inherits `BaseModel.id =
UUIDField(primary_key=True, default=uuid.uuid4)` and Django applies the
field default in `Model.__init__`, so `self.pk` is non-empty from the
moment of construction, `not self.pk` is always false and that branch can
never raise — the repository's own test suite creates past-dated rows via
`Consulta.objects.create` and expects success.  The embedding therefore
omits the dead branch.  Returns the object as mutated by `clean`, or the
raised `ValidationError` message. -/
def clean (prof : Profissional) (now : Nat) (c0 : Consulta) :
    Except String Consulta :=
  let c1 := if c0.data_hora_fim = none then
    { c0 with data_hora_fim := some (c0.data_hora + c0.duracao_estimada) } else c0
  if c1.status = Status.CANCELADA ∧ c1.motivo_cancelamento = "" then
    .error "Motivo do cancelamento é obrigatório"
  else
    let c2 := if c1.status = Status.CANCELADA ∧ c1.data_cancelamento = none then
      { c1 with data_cancelamento := some now } else c1
    let c3 := if valorFalsy c2.valor_consulta ∧ ¬ valorFalsy prof.valor_consulta then
      { c2 with valor_consulta := prof.valor_consulta } else c2
    .ok c3

/-- The `clean_fields` step of `Model.full_clean`: each text column's
`max_length` is enforced by Django's `MaxLengthValidator` (CharField and
TextField declarations of `Consulta`); the other columns of the embedding
are in range by construction.  This matters on the serializer-free path
(`Consulta.remarcar` builds a fresh `observacoes` string); on
serializer-mediated saves every text field was already bounded by the
serializer's fields at deserialization, so there `clean_fields` cannot
raise and the embedding leaves it implicit. -/
def clean_fields (c : Consulta) : Except String Unit :=
  if c.nome_paciente.length > 150 then
    .error "nome_paciente: máximo 150 caracteres"
  else if c.telefone_paciente.length > 20 then
    .error "telefone_paciente: máximo 20 caracteres"
  else if c.motivo_consulta.length > 500 then
    .error "motivo_consulta: máximo 500 caracteres"
  else if c.observacoes.length > 1000 then
    .error "observacoes: máximo 1000 caracteres"
  else if c.observacoes_internas.length > 1000 then
    .error "observacoes_internas: máximo 1000 caracteres"
  else if c.motivo_cancelamento.length > 500 then
    .error "motivo_cancelamento: máximo 500 caracteres"
  else .ok ()

/-- `Model.full_clean` as `Consulta.save` invokes it on the
serializer-free `remarcar` path: `clean_fields` (max-length validation)
then the model `clean`; `validate_unique` is a no-op here (no unique
constraint besides the pk). -/
def full_clean (prof : Profissional) (now : Nat) (c : Consulta) :
    Except String Consulta :=
  (clean_fields c).bind fun _ => clean prof now c

/-- `Consulta.confirmar`: guard then `save(update_fields=["status", ...])`.
The persisted row keeps every column except `status`. -/
def confirmar (prof : Profissional) (now : Nat) (c : Consulta) :
    Except String Consulta :=
  if c.status ≠ Status.AGENDADA then
    .error "Apenas consultas agendadas podem ser confirmadas"
  else
    let m := { c with status := Status.CONFIRMADA }
    (clean prof now m).map fun _ => m

/-- `Consulta.iniciar`. -/
def iniciar (prof : Profissional) (now : Nat) (c : Consulta) :
    Except String Consulta :=
  if c.status ≠ Status.AGENDADA ∧ c.status ≠ Status.CONFIRMADA then
    .error "Consulta deve estar agendada ou confirmada para iniciar"
  else
    let m := { c with status := Status.EM_ANDAMENTO }
    (clean prof now m).map fun _ => m

/-- `Consulta.finalizar` (models.py lines 170-176): only from
`EM_ANDAMENTO`; sets `status = CONCLUIDA` and `data_hora_fim = now`.
Note the Python method signature is `def finalizar(self)` — no further
parameters. -/
def finalizar (prof : Profissional) (now : Nat) (c : Consulta) :
    Except String Consulta :=
  if c.status ≠ Status.EM_ANDAMENTO then
    .error "Apenas consultas em andamento podem ser finalizadas"
  else
    let m := { c with status := Status.CONCLUIDA, data_hora_fim := some now }
    (clean prof now m).map fun _ => m

/-- `Consulta.cancelar(motivo, cancelado_por)` (models.py lines 178-187). -/
def cancelar (prof : Profissional) (now : Nat) (c : Consulta)
    (motivo : String) (quem : CanceladoPor) : Except String Consulta :=
  if c.status = Status.CONCLUIDA ∨ c.status = Status.CANCELADA then
    .error "Consulta já finalizada não pode ser cancelada"
  else
    let m := { c with status := Status.CANCELADA, motivo_cancelamento := motivo,
                      cancelado_por := some quem, data_cancelamento := some now }
    (clean prof now m).map fun _ => m

/-- Persisting `self.save(update_fields=["status", ...])` on the table:
only the `status` column of the row with primary key `cid` changes. -/
def setStatus (store : List Consulta) (cid : Nat) (st : Status) : List Consulta :=
  store.map fun r => if r.id = cid then { r with status := st } else r

/-- The argument `Consulta.remarcar` passes to `Consulta.objects.create`
(models.py lines 199-211): fields copied from `self`, plus the origin link;
every other column takes its model default. -/
def novaConsultaRemarcada (c : Consulta) (newId : Nat)
    (nova_data_hora : Nat) (motivo : String) : Consulta :=
  { id := newId
    profissional := c.profissional
    data_hora := nova_data_hora
    duracao_estimada := c.duracao_estimada
    data_hora_fim := none
    tipo_consulta := c.tipo_consulta
    status := Status.AGENDADA
    nome_paciente := c.nome_paciente
    telefone_paciente := c.telefone_paciente
    email_paciente := c.email_paciente
    motivo_consulta := c.motivo_consulta
    observacoes := if motivo ≠ "" then "Remarcada. Motivo: " ++ motivo else "Remarcada"
    observacoes_internas := ""
    valor_consulta := c.valor_consulta
    pago := false
    motivo_cancelamento := ""
    cancelado_por := none
    data_cancelamento := none
    consulta_origem := some c.id
    is_active := true }

/-- `Consulta.remarcar(nova_data_hora, motivo)` (models.py lines 189-213)
acting on the persisted table.  First persists `status = REMARCADA` on the
current row, then creates the replacement via `Consulta.objects.create`;
both saves run `full_clean` (`clean_fields` then `clean` — the model
future check being dead code, nothing rejects a past `nova_data_hora`
here).  There is no enclosing transaction: when the create step raises,
the first save is already committed. -/
def remarcar (prof : Profissional) (now newId : Nat) (c : Consulta)
    (store : List Consulta) (nova_data_hora : Nat) (motivo : String) :
    List Consulta × Except String Consulta :=
  if c.status = Status.CONCLUIDA ∨ c.status = Status.CANCELADA then
    (store, .error "Consulta finalizada não pode ser remarcada")
  else
    match full_clean prof now { c with status := Status.REMARCADA } with
    | .error e => (store, .error e)
    | .ok _ =>
      let store1 := setStatus store c.id Status.REMARCADA
      match full_clean prof now (novaConsultaRemarcada c newId nova_data_hora motivo) with
      | .error e => (store1, .error e)
      | .ok nova => (store1 ++ [nova], .ok nova)

/-! ### Serializer layer (consultas/serializers.py) -/

/-- `ConsultaSerializer.validate_profissional`. -/
def validate_profissional (prof : Profissional) : Except String Unit :=
  if ¬ prof.is_active then
    .error "Não é possível agendar consulta com profissional inativo"
  else .ok ()

/-- `ConsultaSerializer.validate_data_hora`. -/
def validate_data_hora (now : Nat) (v : Nat) : Except String Unit :=
  if v ≤ now then
    .error "Data e hora da consulta devem ser no futuro"
  else .ok ()

/-- `ConsultaSerializer.validate_duracao_estimada`: `0 < value ≤ 480`. -/
def validate_duracao_estimada (v : Nat) : Except String Unit :=
  if v = 0 then
    .error "Duração estimada deve ser maior que zero"
  else if v > 480 then
    .error "Duração estimada não pode exceder 8 horas (480 minutos)"
  else .ok ()

/-- `ValidationMixin.validate_telefone` (lacrei_saude/serializers.py):
the digit count of the value must be 10 or 11. -/
def validate_telefone (v : String) : Except String Unit :=
  if v ≠ "" then
    let digits := (v.toList.filter Char.isDigit).length
    if digits < 10 ∨ digits > 11 then
      .error "Telefone deve ter 10 ou 11 dígitos (incluindo DDD)"
    else .ok ()
  else .ok ()

/-- DRF runs a field-level validator only when the key is present in the
request body. -/
def validate_optional {α : Type} (f : α → Except String Unit) :
    Option α → Except String Unit
  | some v => f v
  | none => .ok ()

/-- The three statuses the conflict query counts as blocking
(`status__in=["AGENDADA", "CONFIRMADA", "EM_ANDAMENTO"]`). -/
def statusAtivo (s : Status) : Bool :=
  s == Status.AGENDADA || s == Status.CONFIRMADA || s == Status.EM_ANDAMENTO

/-- SQL comparison `data_hora_fim <= t`: a NULL column compares false. -/
def fimLe (c : Consulta) (t : Nat) : Bool :=
  match c.data_hora_fim with
  | none => false
  | some f => f ≤ t

/-- The conflict queryset of `ConsultaSerializer.validate` (serializers.py
lines 144-154): active rows of the professional in a blocking status, minus
those that end before the window starts or start after it ends, minus the
serializer's own instance on update. -/
def conflitos (store : List Consulta) (profId : Nat)
    (data_hora data_hora_fim : Nat) (excludePk : Option Nat) : List Consulta :=
  ((store.filter fun r =>
      r.profissional == profId && r.is_active && statusAtivo r.status).filter fun r =>
      ¬ (fimLe r data_hora || decide (r.data_hora ≥ data_hora_fim))).filter fun r =>
      excludePk ≠ some r.id

/-- The message raised on a slot conflict. -/
def slotConflictMsg : String :=
  "Já existe uma consulta agendada para este profissional no horário solicitado"

/-- The object-level `ConsultaSerializer.validate` (serializers.py lines
133-167) on input data that contains both `profissional` and `data_hora`
(always the case on create, where both are required).  `duracaoField` is
`data.get("duracao_estimada")`, defaulted to 60 inside the check; the
result is the effective `valor_consulta` after the professional-price
default. -/
def consultaSerializerValidate (store : List Consulta) (prof : Profissional)
    (data_hora : Nat) (duracaoField : Option Nat) (valor : Option Nat)
    (instancePk : Option Nat) : Except String (Option Nat) :=
  let duracao := duracaoField.getD 60
  let data_hora_fim := data_hora + duracao
  if conflitos store prof.id data_hora data_hora_fim instancePk ≠ [] then
    .error slotConflictMsg
  else
    let valor2 := if valorFalsy valor ∧ ¬ valorFalsy prof.valor_consulta then
      prof.valor_consulta else valor
    .ok valor2

/-- The writable input of `ConsultaCreateSerializer`; `prof` is passed
separately as the resolved `profissional` foreign key.  `none` in an
optional field means the key is absent from the request body. -/
structure CreateData where
  data_hora : Nat
  duracao_estimada : Option Nat
  tipo_consulta : TipoConsulta
  nome_paciente : String
  telefone_paciente : String
  email_paciente : String
  motivo_consulta : String
  observacoes : String
  valor_consulta : Option Nat
deriving DecidableEq, Repr

/-- The validation pipeline of `POST /consultas/`: DRF field-level
validators, then `ConsultaSerializer.validate`, then the model `clean`
run by `save` (`full_clean`).  Returns the row to insert. -/
def createChecked (store : List Consulta) (prof : Profissional)
    (now newId : Nat) (input : CreateData) : Except String Consulta := do
  validate_profissional prof
  validate_data_hora now input.data_hora
  validate_optional validate_duracao_estimada input.duracao_estimada
  validate_telefone input.telefone_paciente
  let valor2 ← consultaSerializerValidate store prof input.data_hora
    input.duracao_estimada input.valor_consulta none
  clean prof now
    { id := newId
      profissional := prof.id
      data_hora := input.data_hora
      duracao_estimada := input.duracao_estimada.getD 60
      data_hora_fim := none
      tipo_consulta := input.tipo_consulta
      status := Status.AGENDADA
      nome_paciente := input.nome_paciente
      telefone_paciente := input.telefone_paciente
      email_paciente := input.email_paciente
      motivo_consulta := input.motivo_consulta
      observacoes := input.observacoes
      observacoes_internas := ""
      valor_consulta := valor2
      pago := false
      motivo_cancelamento := ""
      cancelado_por := none
      data_cancelamento := none
      consulta_origem := none
      is_active := true }

/-- `create`: on validation success the cleaned row is inserted, otherwise
the table is unchanged and the error is reported (a field-keyed 400). -/
def createConsulta (store : List Consulta) (prof : Profissional)
    (now newId : Nat) (input : CreateData) :
    List Consulta × Except String Consulta :=
  match createChecked store prof now newId input with
  | .error e => (store, .error e)
  | .ok c => (store ++ [c], .ok c)

/-- The writable input of `ConsultaUpdateSerializer` (serializers.py lines
236-245): note the field list has no `profissional` entry.  `none` means
the key is absent from the PATCH body. -/
structure UpdateData where
  data_hora : Option Nat
  duracao_estimada : Option Nat
  telefone_paciente : Option String
  email_paciente : Option String
  motivo_consulta : Option String
  observacoes : Option String
  valor_consulta : Option Nat
deriving DecidableEq, Repr

/-- `ConsultaUpdateSerializer.validate` (serializers.py lines 247-253)
followed by the inherited `ConsultaSerializer.validate`: since
`"profissional" in data` is false for every update payload (the field is
not in the serializer), both the conflict branch and the price-default
branch of the parent `validate` are skipped. -/
def consultaUpdateValidate (inst : Consulta) (_d : UpdateData) :
    Except String Unit :=
  if inst.status = Status.CONCLUIDA ∨ inst.status = Status.CANCELADA then
    .error "Não é possível alterar consulta finalizada"
  else .ok ()

/-- Applying a validated partial update to the instance, as
`serializer.save()` does before the model `save`/`full_clean`. -/
def applyUpdate (c : Consulta) (d : UpdateData) : Consulta :=
  { c with
    data_hora := d.data_hora.getD c.data_hora
    duracao_estimada := d.duracao_estimada.getD c.duracao_estimada
    telefone_paciente := d.telefone_paciente.getD c.telefone_paciente
    email_paciente := d.email_paciente.getD c.email_paciente
    motivo_consulta := d.motivo_consulta.getD c.motivo_consulta
    observacoes := d.observacoes.getD c.observacoes
    valor_consulta := match d.valor_consulta with
      | some v => some v
      | none => c.valor_consulta }

/-- `PATCH /consultas/{id}`: field validators on the supplied keys, the
update serializer `validate`, then the model `clean` run by `save`; on
success the row is replaced in the table. -/
def updateConsulta (store : List Consulta) (prof : Profissional) (now : Nat)
    (inst : Consulta) (d : UpdateData) :
    List Consulta × Except String Consulta :=
  let checked : Except String Consulta := do
    validate_optional (validate_data_hora now) d.data_hora
    validate_optional validate_duracao_estimada d.duracao_estimada
    validate_optional validate_telefone d.telefone_paciente
    consultaUpdateValidate inst d
    clean prof now (applyUpdate inst d)
  match checked with
  | .error e => (store, .error e)
  | .ok c => (store.map fun r => if r.id = inst.id then c else r, .ok c)

/-! ### View layer (consultas/views.py) and permissions -/

/-- An HTTP response: status code and a body summary. -/
structure Response where
  statusCode : Nat
  body : String
deriving DecidableEq, Repr

/-- The dynamic Python call `consulta.finalizar(observacoes_internas)`
issued by `ConsultaViewSet.finalizar` (views.py line 196).  The method is
declared `def finalizar(self)` with no further parameters (models.py line
170), so CPython raises `TypeError` at the call site, before the method
body runs; no state is read or written. -/
def finalizarCallWithArg (_c : Consulta) (_obs : String) :
    Except String Consulta :=
  .error "finalizar() takes 1 positional argument but 2 were given"

/-- `ConsultaViewSet.finalizar` (views.py lines 187-205): try the call,
reply 200 on success and 400 with `{error: str(e)}` on any exception.
Returns the row as persisted together with the response. -/
def viewFinalizar (c : Consulta) (obs : String) : Consulta × Response :=
  match finalizarCallWithArg c obs with
  | .ok c2 => (c2, ⟨200, "Consulta finalizada com sucesso"⟩)
  | .error e => (c, ⟨400, e⟩)

/-- `ConsultaViewSet.perform_destroy` (views.py lines 135-147): for a row
in `EM_ANDAMENTO` or `CONCLUIDA` it builds a 400 `Response` and returns it,
leaving the row untouched; otherwise it clears `is_active` and saves (a
full save, so `full_clean` runs and its mutations persist).  The result is
(the row as persisted or the save error, the value returned to the
caller). -/
def perform_destroy (prof : Profissional) (now : Nat) (c : Consulta) :
    Except String Consulta × Option Response :=
  if c.status = Status.EM_ANDAMENTO ∨ c.status = Status.CONCLUIDA then
    (.ok c, some ⟨400, "Consulta em andamento ou concluída não pode ser excluída"⟩)
  else
    (clean prof now { c with is_active := false }, none)

/-- DRF `DestroyModelMixin.destroy`, which `ConsultaViewSet` inherits for
`DELETE /consultas/{id}`: it calls `self.perform_destroy(instance)`,
discards whatever that returns, and replies 204 No Content; an exception
escaping `save` would surface as a 500. -/
def destroyConsulta (prof : Profissional) (now : Nat) (c : Consulta) :
    Consulta × Response :=
  match perform_destroy prof now c with
  | (.ok c2, _) => (c2, ⟨204, ""⟩)
  | (.error e, _) => (c, ⟨500, e⟩)

/-- The `action` choice field of `ConsultaActionSerializer`. -/
inductive ActionChoice
  | confirmar
  | iniciar
  | finalizar
  | cancelar
  | remarcar
deriving DecidableEq, Repr

/-- The body of a transition endpoint as deserialized by
`ConsultaActionSerializer`; `none` in an optional field means the key is
absent. -/
structure ActionData where
  action : ActionChoice
  motivo : Option String
  nova_data_hora : Option Nat
  cancelado_por : Option CanceladoPor
deriving DecidableEq, Repr

/-- `ConsultaActionSerializer.validate` (serializers.py lines 276-292):
`cancelar` needs a truthy `motivo`; `remarcar` needs a `nova_data_hora`
that is strictly in the future (an absent key is falsy, a present datetime
is always truthy). -/
def actionValidate (now : Nat) (d : ActionData) : Except String ActionData :=
  if d.action = ActionChoice.cancelar ∧ (d.motivo.getD "") = "" then
    .error "Motivo é obrigatório para cancelamento"
  else if d.action = ActionChoice.remarcar then
    match d.nova_data_hora with
    | none => .error "Nova data e hora são obrigatórias para remarcação"
    | some nd =>
      if nd ≤ now then
        .error "Nova data deve ser no futuro"
      else .ok d
  else .ok d

/-- `ConsultaViewSet.remarcar` (views.py lines 233-258): validate the body
with `ConsultaActionSerializer`, replying 400 on invalid data with the
table unchanged; otherwise call `Consulta.remarcar` inside try/except,
replying 400 on an exception (whatever `remarcar` committed before raising
stays committed) and 200 with the new row otherwise. -/
def viewRemarcar (prof : Profissional) (now newId : Nat) (c : Consulta)
    (store : List Consulta) (body : ActionData) : List Consulta × Response :=
  match actionValidate now body with
  | .error e => (store, ⟨400, e⟩)
  | .ok d =>
    match d.nova_data_hora with
    | none => (store, ⟨500, "KeyError: nova_data_hora"⟩)
    | some nd =>
      match remarcar prof now newId c store nd (d.motivo.getD "") with
      | (store2, .ok _) => (store2, ⟨200, "Consulta remarcada com sucesso"⟩)
      | (store2, .error e) => (store2, ⟨400, e⟩)

/-- The slice of the authenticated user the permission classes read. -/
structure User where
  id : Nat
  is_superuser : Bool
  is_admin : Bool
  is_profissional : Bool
  profissional : Option Nat
deriving DecidableEq, Repr

/-- `IsOwnerProfissionalOrAdmin.has_object_permission`
(authentication/permissions.py lines 42-62) specialised to `Consulta`
objects: `hasattr(obj, "profissional")` holds and the FK is non-null, so
the professional-ownership branch is reachable; `hasattr(obj, "user")` is
false (`Consulta` has no `user` attribute), so the method falls through to
`False` for everyone else — including the patient the appointment is
for. -/
def hasObjectPermission (u : User) (c : Consulta) : Bool :=
  if u.is_superuser || u.is_admin then true
  else if u.is_profissional && u.profissional == some c.profissional then true
  else false

/-- Day index of a timestamp, modelling the SQL `__date` lookup on a
minute-resolution timestamp. -/
def dateOf (t : Nat) : Nat := t / 1440

/-- The optional query parameters `ConsultaViewSet.get_queryset`
(views.py lines 72-115) reads; date parameters are day indexes and
`periodo` is the raw string (unrecognised values are ignored, as in the
code). -/
structure ListParams where
  profissional_id : Option Nat
  data_inicio : Option Nat
  data_fim : Option Nat
  status_list : Option (List Status)
  periodo : Option String
deriving DecidableEq, Repr

/-- `ConsultaViewSet.get_queryset` on top of the class queryset
`Consulta.objects.filter(is_active=True)`: only query-parameter filters are
applied — nothing about the requesting user is consulted. -/
def getQueryset (store : List Consulta) (now : Nat) (p : ListParams) :
    List Consulta :=
  let q := store.filter fun r => r.is_active
  let q := match p.profissional_id with
    | some pid => q.filter fun r => r.profissional == pid
    | none => q
  let q := match p.data_inicio with
    | some d => q.filter fun r => d ≤ dateOf r.data_hora
    | none => q
  let q := match p.data_fim with
    | some d => q.filter fun r => dateOf r.data_hora ≤ d
    | none => q
  let q := match p.status_list with
    | some l => q.filter fun r => l.contains r.status
    | none => q
  match p.periodo with
  | some "futuras" => q.filter fun r => now < r.data_hora
  | some "passadas" => q.filter fun r => r.data_hora < now
  | some "hoje" => q.filter fun r => dateOf r.data_hora == dateOf now
  | _ => q

/-- The row set returned by `GET /consultas/` to an authenticated user:
`get_queryset` plus nothing else — `IsOwnerProfissionalOrAdmin` has no
`has_permission` hook and `has_object_permission` is not evaluated for
list actions, so the principal does not influence which rows appear. -/
def listConsultas (_u : User) (store : List Consulta) (now : Nat)
    (p : ListParams) : List Consulta :=
  getQueryset store now p

/-! ### Concrete fixtures used in closed evaluations -/

/-- An active professional with a listed price. -/
def profA : Profissional := ⟨1, true, some 15000⟩

/-- A booked appointment of professional 1 on minutes 840-900 of day 0
(14:00-15:00), status `AGENDADA`. -/
def baseConsulta : Consulta :=
  { id := 10
    profissional := 1
    data_hora := 840
    duracao_estimada := 60
    data_hora_fim := some 900
    tipo_consulta := TipoConsulta.PRIMEIRA_CONSULTA
    status := Status.AGENDADA
    nome_paciente := "Ana"
    telefone_paciente := "11987654321"
    email_paciente := ""
    motivo_consulta := ""
    observacoes := ""
    observacoes_internas := ""
    valor_consulta := some 15000
    pago := false
    motivo_cancelamento := ""
    cancelado_por := none
    data_cancelamento := none
    consulta_origem := none
    is_active := true }

/-- The same appointment already in progress. -/
def consultaEmAndamento : Consulta := { baseConsulta with status := Status.EM_ANDAMENTO }

/-- A later appointment of the same professional, minutes 1200-1260. -/
def consultaB : Consulta :=
  { baseConsulta with id := 11, data_hora := 1200, data_hora_fim := some 1260 }

/-- An appointment belonging to professional 2. -/
def consultaProf2 : Consulta := { baseConsulta with id := 30, profissional := 2 }

/-- A professional-role user owning professional 1 (not an admin). -/
def userProf1 : User := ⟨100, false, false, true, some 1⟩

/-- A patient-role user (no professional, no admin flags). -/
def userPaciente : User := ⟨101, false, false, false, none⟩

/-- A list request with no query parameters. -/
def emptyParams : ListParams := ⟨none, none, none, none, none⟩

/-! ### Helper lemmas -/

theorem except_ok_bind {α β : Type} (a : α) (f : α → Except String β) :
    (Except.ok a >>= f) = f a := rfl

theorem except_error_bind {α β : Type} (e : String) (f : α → Except String β) :
    ((Except.error e : Except String α) >>= f) = .error e := rfl

theorem except_pure_bind {α β : Type} (a : α) (f : α → Except String β) :
    ((pure a : Except String α) >>= f) = f a := rfl

/-- The exact result of `clean` on a freshly created row (no explicit
`data_hora_fim`, not `CANCELADA`). -/
theorem clean_create_eq (prof : Profissional) (now : Nat) (c0 : Consulta)
    (hfim : c0.data_hora_fim = none) (hst : c0.status ≠ Status.CANCELADA) :
    clean prof now c0 = .ok
      { c0 with
        data_hora_fim := some (c0.data_hora + c0.duracao_estimada)
        valor_consulta :=
          if valorFalsy c0.valor_consulta ∧ ¬ valorFalsy prof.valor_consulta
          then prof.valor_consulta else c0.valor_consulta } := by
  unfold clean
  rw [if_pos hfim, if_neg (by simp [hst]), if_neg (by simp [hst])]
  dsimp only
  split_ifs <;> rfl

/-- A successful `clean` exists exactly when the row is not `CANCELADA`
with an empty cancellation reason. -/
theorem clean_ok_iff (prof : Profissional) (now : Nat) (c0 : Consulta) :
    (∃ c1, clean prof now c0 = .ok c1) ↔
      ¬ (c0.status = Status.CANCELADA ∧ c0.motivo_cancelamento = "") := by
  by_cases h2 : c0.data_hora_fim = none <;>
    by_cases h3 : c0.status = Status.CANCELADA ∧ c0.motivo_cancelamento = "" <;>
      simp [clean, h2, h3]

/-! ### Claims -/

/-- C4: `cancelar(motivo, quem)` succeeds exactly when the appointment is
not already `CONCLUIDA` or `CANCELADA` and the reason is non-empty (the
guard rejects terminal states; `save`/`full_clean` rejects an empty
`motivo_cancelamento` once the status is `CANCELADA`); a successful cancel
persists `status = CANCELADA`, `data_cancelamento = some now` (non-null)
and `cancelado_por = quem`. -/
theorem cancelar_correct (prof : Profissional) (now : Nat) (c : Consulta)
    (motivo : String) (quem : CanceladoPor) :
    ((∃ c2, cancelar prof now c motivo quem = .ok c2) ↔
      (c.status ≠ Status.CONCLUIDA ∧ c.status ≠ Status.CANCELADA ∧ motivo ≠ "")) ∧
    ∀ c2, cancelar prof now c motivo quem = .ok c2 →
      c2.status = Status.CANCELADA ∧ c2.data_cancelamento = some now ∧
      c2.cancelado_por = some quem ∧ c2.motivo_cancelamento = motivo := by
  unfold cancelar
  by_cases hg : c.status = Status.CONCLUIDA ∨ c.status = Status.CANCELADA
  · rw [if_pos hg]
    refine ⟨⟨fun h2 => ?_, fun h2 => ?_⟩, fun c2 h2 => by cases h2⟩
    · obtain ⟨c2, h2⟩ := h2
      cases h2
    · obtain ⟨h1, h2, -⟩ := h2
      rcases hg with hg | hg
      · exact absurd hg h1
      · exact absurd hg h2
  · rw [if_neg hg]
    dsimp only
    push_neg at hg
    have hiff := clean_ok_iff prof now
      { c with status := Status.CANCELADA, motivo_cancelamento := motivo,
               cancelado_por := some quem, data_cancelamento := some now }
    cases hcl : clean prof now
      { c with status := Status.CANCELADA, motivo_cancelamento := motivo,
               cancelado_por := some quem, data_cancelamento := some now } with
    | error e =>
      rw [hcl] at hiff
      simp at hiff
      refine ⟨⟨fun h2 => ?_, fun h2 => ?_⟩, fun c2 h2 => by simp [Except.map] at h2⟩
      · obtain ⟨c2, h2⟩ := h2
        simp [Except.map] at h2
      · exact absurd hiff h2.2.2
    | ok c1 =>
      rw [hcl] at hiff
      simp at hiff
      refine ⟨iff_of_true ⟨_, rfl⟩ ⟨hg.1, hg.2, hiff⟩, ?_⟩
      intro c2 h2
      simp only [Except.map] at h2
      injection h2 with h2
      subst h2
      exact ⟨rfl, rfl, rfl, rfl⟩

/-- C4 witness: a concrete successful cancel of an `AGENDADA` appointment
with a non-empty reason. -/
theorem cancelar_correct_witness :
    ∃ c2, cancelar profA 100 baseConsulta "paciente indisponivel"
        CanceladoPor.PACIENTE = .ok c2 ∧
      c2.status = Status.CANCELADA ∧ c2.data_cancelamento = some 100 ∧
      c2.cancelado_por = some CanceladoPor.PACIENTE := by
  have h := cancelar_correct profA 100 baseConsulta "paciente indisponivel"
    CanceladoPor.PACIENTE
  obtain ⟨c2, hc2⟩ := h.1.mpr (by decide)
  obtain ⟨h1, h2, h3, -⟩ := h.2 c2 hc2
  exact ⟨c2, hc2, h1, h2, h3⟩

/-- C9: every appointment accepted by the create pipeline (which never
supplies an explicit `data_hora_fim`) is persisted with
`data_hora_fim = data_hora + duracao_estimada`, the duration defaulting to
60 when the request omits it; hence the end is at or after the start. -/
theorem create_derives_data_hora_fim (store : List Consulta)
    (prof : Profissional) (now newId : Nat) (input : CreateData) (c : Consulta)
    (h : (createConsulta store prof now newId input).2 = .ok c) :
    c.data_hora = input.data_hora ∧
    c.duracao_estimada = input.duracao_estimada.getD 60 ∧
    c.data_hora_fim = some (c.data_hora + c.duracao_estimada) ∧
    input.data_hora ≤ input.data_hora + input.duracao_estimada.getD 60 := by
  have hch : createChecked store prof now newId input = .ok c := by
    unfold createConsulta at h
    revert h
    cases createChecked store prof now newId input with
    | error e => intro h; exact absurd h (by simp)
    | ok c2 => intro h; exact h
  unfold createChecked at hch
  cases h1 : validate_profissional prof with
  | error e => rw [h1, except_error_bind] at hch; cases hch
  | ok u1 =>
  rw [h1, except_ok_bind] at hch
  cases h2 : validate_data_hora now input.data_hora with
  | error e => rw [h2, except_error_bind] at hch; cases hch
  | ok u2 =>
  rw [h2, except_ok_bind] at hch
  cases h3 : validate_optional validate_duracao_estimada input.duracao_estimada with
  | error e => rw [h3, except_error_bind] at hch; cases hch
  | ok u3 =>
  rw [h3, except_ok_bind] at hch
  cases h4 : validate_telefone input.telefone_paciente with
  | error e => rw [h4, except_error_bind] at hch; cases hch
  | ok u4 =>
  rw [h4, except_ok_bind] at hch
  cases h5 : consultaSerializerValidate store prof input.data_hora
      input.duracao_estimada input.valor_consulta none with
  | error e => rw [h5, except_error_bind] at hch; cases hch
  | ok v2 =>
  rw [h5, except_ok_bind] at hch
  rw [clean_create_eq _ _ _ rfl (by simp)] at hch
  injection hch with hch
  subst hch
  exact ⟨rfl, rfl, rfl, Nat.le_add_right _ _⟩

/-- A create request at minute 840 leaving the duration implicit. -/
def inputA : CreateData :=
  { data_hora := 840
    duracao_estimada := none
    tipo_consulta := TipoConsulta.PRIMEIRA_CONSULTA
    nome_paciente := "Bea"
    telefone_paciente := "11987654321"
    email_paciente := ""
    motivo_consulta := ""
    observacoes := ""
    valor_consulta := some 20000 }

/-- C9 witness: creating at minute 840 with the duration omitted stores
`data_hora_fim = 840 + 60`. -/
theorem create_derives_data_hora_fim_witness :
    ∃ c, (createConsulta [] profA 100 40 inputA).2 = .ok c ∧
      c.data_hora_fim = some (c.data_hora + c.duracao_estimada) ∧
      c.duracao_estimada = 60 := by
  have hr : (createConsulta [] profA 100 40 inputA).2 = .ok
      { id := 40
        profissional := 1
        data_hora := 840
        duracao_estimada := 60
        data_hora_fim := some 900
        tipo_consulta := TipoConsulta.PRIMEIRA_CONSULTA
        status := Status.AGENDADA
        nome_paciente := "Bea"
        telefone_paciente := "11987654321"
        email_paciente := ""
        motivo_consulta := ""
        observacoes := ""
        observacoes_internas := ""
        valor_consulta := some 20000
        pago := false
        motivo_cancelamento := ""
        cancelado_por := none
        data_cancelamento := none
        consulta_origem := none
        is_active := true } := by decide
  have h := create_derives_data_hora_fim [] profA 100 40 inputA _ hr
  exact ⟨_, hr, h.2.2.1, h.2.1⟩

/-- Membership in the conflict queryset, unfolded to its row
conditions. -/
theorem mem_conflitos_iff (store : List Consulta) (profId s e : Nat)
    (ex : Option Nat) (r : Consulta) :
    r ∈ conflitos store profId s e ex ↔
      r ∈ store ∧ r.profissional = profId ∧ r.is_active = true ∧
      statusAtivo r.status = true ∧ fimLe r s = false ∧ r.data_hora < e ∧
      ex ≠ some r.id := by
  simp [conflitos, List.mem_filter, not_or, Nat.lt_iff_add_one_le]
  tauto

/-- The conflict queryset is non-empty exactly when some row meets all its
conditions. -/
theorem conflitos_ne_nil_iff (store : List Consulta) (profId s e : Nat)
    (ex : Option Nat) :
    conflitos store profId s e ex ≠ [] ↔
      ∃ r, r ∈ store ∧ r.profissional = profId ∧ r.is_active = true ∧
        statusAtivo r.status = true ∧ fimLe r s = false ∧ r.data_hora < e ∧
        ex ≠ some r.id := by
  constructor
  · intro h
    obtain ⟨r, hr⟩ := List.exists_mem_of_ne_nil _ h
    exact ⟨r, (mem_conflitos_iff store profId s e ex r).mp hr⟩
  · rintro ⟨r, hr⟩
    exact List.ne_nil_of_mem ((mem_conflitos_iff store profId s e ex r).mpr hr)

/-- C1: assuming the other field validators pass (active professional,
future start, duration in range when supplied, well-formed phone) and
every stored row has its `data_hora_fim` set (which every saved row has,
since `clean` derives it), creation fails with the slot-conflict
validation error exactly when some existing active row of the same
professional in status AGENDADA/CONFIRMADA/EM_ANDAMENTO has a window
overlapping `[data_hora, data_hora + duracao)` in the half-open sense
`s1 < e2 AND s2 < e1`; otherwise creation succeeds — in particular a
request merely touching an existing window's endpoint is accepted. -/
theorem create_slot_conflict_iff (store : List Consulta)
    (prof : Profissional) (now newId : Nat) (input : CreateData)
    (hActive : prof.is_active = true)
    (hFuture : now < input.data_hora)
    (hDur : ∀ d, input.duracao_estimada = some d → 0 < d ∧ d ≤ 480)
    (hTel : validate_telefone input.telefone_paciente = .ok ())
    (hFim : ∀ r ∈ store, r.data_hora_fim ≠ none) :
    ((createConsulta store prof now newId input).2 = .error slotConflictMsg ↔
      ∃ r, r ∈ store ∧ r.profissional = prof.id ∧ r.is_active = true ∧
        statusAtivo r.status = true ∧
        ∃ rf, r.data_hora_fim = some rf ∧ input.data_hora < rf ∧
          r.data_hora < input.data_hora + input.duracao_estimada.getD 60) ∧
    ((createConsulta store prof now newId input).2 = .error slotConflictMsg ∨
      ∃ c, (createConsulta store prof now newId input).2 = .ok c) := by
  have h1 : validate_profissional prof = .ok () := by
    simp [validate_profissional, hActive]
  have h2 : validate_data_hora now input.data_hora = .ok () := by
    unfold validate_data_hora
    rw [if_neg (by omega)]
  have h3 : validate_optional validate_duracao_estimada
      input.duracao_estimada = .ok () := by
    cases hdd : input.duracao_estimada with
    | none => rfl
    | some d =>
      obtain ⟨hd1, hd2⟩ := hDur d hdd
      simp only [validate_optional, validate_duracao_estimada]
      rw [if_neg (by omega), if_neg (by omega)]
  have hbridge : (conflitos store prof.id input.data_hora
      (input.data_hora + input.duracao_estimada.getD 60) none ≠ []) ↔
      (∃ r, r ∈ store ∧ r.profissional = prof.id ∧ r.is_active = true ∧
        statusAtivo r.status = true ∧
        ∃ rf, r.data_hora_fim = some rf ∧ input.data_hora < rf ∧
          r.data_hora < input.data_hora + input.duracao_estimada.getD 60) := by
    rw [conflitos_ne_nil_iff]
    constructor
    · rintro ⟨r, hmem, hp, ha, hs, hfimle, hlt, -⟩
      cases hrf : r.data_hora_fim with
      | none => exact absurd hrf (hFim r hmem)
      | some rf =>
        refine ⟨r, hmem, hp, ha, hs, rf, hrf, ?_, hlt⟩
        unfold fimLe at hfimle
        rw [hrf] at hfimle
        simp at hfimle
        omega
    · rintro ⟨r, hmem, hp, ha, hs, rf, hrf, hsrf, hlt⟩
      refine ⟨r, hmem, hp, ha, hs, ?_, hlt, by simp⟩
      unfold fimLe
      rw [hrf]
      simp
      omega
  by_cases hc : conflitos store prof.id input.data_hora
      (input.data_hora + input.duracao_estimada.getD 60) none ≠ []
  · have hv : consultaSerializerValidate store prof input.data_hora
        input.duracao_estimada input.valor_consulta none =
        .error slotConflictMsg := by
      unfold consultaSerializerValidate
      rw [if_pos hc]
    have hck : createChecked store prof now newId input =
        .error slotConflictMsg := by
      unfold createChecked
      rw [h1, except_ok_bind, h2, except_ok_bind, h3, except_ok_bind,
        hTel, except_ok_bind, hv, except_error_bind]
    have hE : (createConsulta store prof now newId input).2 =
        .error slotConflictMsg := by
      unfold createConsulta
      rw [hck]
    rw [hE]
    exact ⟨iff_of_true rfl (hbridge.mp hc), Or.inl rfl⟩
  · have hv : consultaSerializerValidate store prof input.data_hora
        input.duracao_estimada input.valor_consulta none =
        .ok (if valorFalsy input.valor_consulta ∧ ¬ valorFalsy prof.valor_consulta
          then prof.valor_consulta else input.valor_consulta) := by
      unfold consultaSerializerValidate
      rw [if_neg hc]
    have hck : ∃ c, createChecked store prof now newId input = .ok c := by
      unfold createChecked
      rw [h1, except_ok_bind, h2, except_ok_bind, h3, except_ok_bind,
        hTel, except_ok_bind, hv, except_ok_bind,
        clean_create_eq _ _ _ rfl (by simp)]
      exact ⟨_, rfl⟩
    obtain ⟨c, hck⟩ := hck
    have hE : (createConsulta store prof now newId input).2 = .ok c := by
      unfold createConsulta
      rw [hck]
    rw [hE]
    refine ⟨iff_of_false (by simp) fun hr => hc (hbridge.mpr hr), Or.inr ⟨c, rfl⟩⟩

/-- C1 witness, following the spec's concrete scenarios: with appointment
10 occupying minutes 840-900, a request at 870 for 30 minutes is refused
with the slot-conflict error, while a request exactly at the 900 boundary
is not a conflict (and is accepted). -/
theorem create_slot_conflict_iff_witness :
    (createConsulta [baseConsulta] profA 100 41
      { inputA with data_hora := 870, duracao_estimada := some 30 }).2 =
        .error slotConflictMsg ∧
    ¬ (createConsulta [baseConsulta] profA 100 41
      { inputA with data_hora := 900, duracao_estimada := some 30 }).2 =
        .error slotConflictMsg := by
  constructor
  · exact (create_slot_conflict_iff [baseConsulta] profA 100 41
      { inputA with data_hora := 870, duracao_estimada := some 30 }
      (by decide) (by decide) (by decide) (by decide) (by decide)).1.mpr
      ⟨baseConsulta, by decide, by decide, by decide, by decide,
        900, by decide, by decide, by decide⟩
  · intro hbad
    have h := (create_slot_conflict_iff [baseConsulta] profA 100 41
      { inputA with data_hora := 900, duracao_estimada := some 30 }
      (by decide) (by decide) (by decide) (by decide) (by decide)).1.mp hbad
    revert h
    decide

/-- C5: the specification says `finish` succeeds exactly from
`IN_PROGRESS`, turning the status into `COMPLETED` with
`scheduledEnd = now`, and fails with a non-fatal 400 otherwise.  The model
method `Consulta.finalizar` indeed behaves that way, but the endpoint
`ConsultaViewSet.finalizar` calls it as `consulta.finalizar(observacoes_internas)`
although the method signature takes no argument, so the call raises
`TypeError`, the blanket `except` turns it into a 400, and the transition
never succeeds over HTTP — even from `EM_ANDAMENTO`, where this theorem
evaluates both layers. -/
theorem finalizar_view_bug :
    (viewFinalizar consultaEmAndamento "obs").2.statusCode = 400 ∧
    (viewFinalizar consultaEmAndamento "obs").1 = consultaEmAndamento ∧
    finalizar profA 900 consultaEmAndamento =
      .ok { consultaEmAndamento with
              status := Status.CONCLUIDA, data_hora_fim := some 900 } := by
  decide

/-- C8: for an `EM_ANDAMENTO` appointment, `perform_destroy` builds a 400
`Response` and returns it, but DRF's `destroy` discards the return value
of `perform_destroy` and replies 204 unconditionally; so the delete of an
in-progress appointment answers 204 (not the specified 400) while leaving
the row active, and a deletable appointment is soft-deleted with 204 as
specified. -/
theorem destroy_em_andamento_bug :
    destroyConsulta profA 100 consultaEmAndamento = (consultaEmAndamento, ⟨204, ""⟩) ∧
    consultaEmAndamento.is_active = true ∧
    (perform_destroy profA 100 consultaEmAndamento).2 =
      some ⟨400, "Consulta em andamento ou concluída não pode ser excluída"⟩ ∧
    (destroyConsulta profA 100 baseConsulta).1.is_active = false ∧
    (destroyConsulta profA 100 baseConsulta).2.statusCode = 204 := by
  decide

/-- C2: neither `Consulta.remarcar` (which creates the replacement with
`Consulta.objects.create`, bypassing the serializers) nor
`ConsultaUpdateSerializer` (whose field list has no `profissional`, so the
`"profissional" in data` guard of the inherited conflict check is always
false) re-runs the conflict detector.  Concretely: rescheduling
appointment 11 into minute 870 — inside appointment 10's window 840-900 —
succeeds, and the committed table then contains a conflict that the
detector itself reports; likewise a PATCH moving appointment 11's
`data_hora` to 870 passes validation. -/
theorem remarcar_and_update_skip_conflict_check :
    ((remarcar profA 100 21 consultaB [baseConsulta, consultaB] 870 "").2.map
        fun n => n.id) = .ok 21 ∧
    conflitos (remarcar profA 100 21 consultaB [baseConsulta, consultaB] 870 "").1
      1 870 930 (some 21) ≠ [] ∧
    ((updateConsulta [baseConsulta, consultaB] profA 100 consultaB
        ⟨some 870, none, none, none, none, none, none⟩).2.map
        fun u => u.data_hora) = .ok 870 := by
  decide

/-- C6 counterexample: the claim says a non-admin principal's list is
restricted to rows they could read.  Concretely: professional 1's user
(and a patient user) both receive professional 2's appointment from the
list endpoint, although `IsOwnerProfissionalOrAdmin` denies them that very
object. -/
theorem list_returns_unreadable_rows :
    listConsultas userProf1 [consultaProf2] 100 emptyParams = [consultaProf2] ∧
    hasObjectPermission userProf1 consultaProf2 = false ∧
    listConsultas userPaciente [consultaProf2] 100 emptyParams = [consultaProf2] ∧
    hasObjectPermission userPaciente consultaProf2 = false := by
  decide

/-- C6 amended: the list endpoint applies no principal-based visibility
filter at all — two arbitrary users receive identical row sets, and with
no query parameters the page is exactly the active rows of the table;
row-level permission is enforced only per-object on detail and mutation
endpoints. -/
theorem list_independent_of_principal (u v : User) (store : List Consulta)
    (now : Nat) (p : ListParams) :
    listConsultas u store now p = listConsultas v store now p ∧
    listConsultas u store now emptyParams = store.filter fun r => r.is_active := by
  exact ⟨rfl, rfl⟩

/-- C10 counterexample: the claim's second half — that the model-level
future check independently rejects creating the replacement with a
non-future start — is false.  That check is dead code (`not self.pk` is
always false under the uuid pk default), so a model-level reschedule to
minute 50 at `now = 100` succeeds, committing a past-dated replacement
(origin 10, status `AGENDADA`) instead of rejecting it. -/
theorem remarcar_past_start_succeeds :
    ((remarcar profA 100 21 baseConsulta [baseConsulta] 50 "").2.map
        fun nova => (nova.data_hora, nova.consulta_origem, nova.status)) =
      .ok (50, some 10, Status.AGENDADA) ∧
    (50 : Nat) ≤ 100 := by
  decide

/-- C10 amended: a reschedule request whose `nova_data_hora` is not
strictly in the future is refused by `ConsultaActionSerializer.validate`
with a 400 before `Consulta.remarcar` is invoked, leaving the table
unchanged; this serializer check is the only defense — the model-level
future check is dead code and rejects nothing. -/
theorem remarcar_past_rejected (prof : Profissional) (now newId : Nat)
    (c : Consulta) (store : List Consulta) (body : ActionData) (nd : Nat)
    (haction : body.action = ActionChoice.remarcar)
    (hnd : body.nova_data_hora = some nd) (hpast : nd ≤ now) :
    viewRemarcar prof now newId c store body =
      (store, ⟨400, "Nova data deve ser no futuro"⟩) := by
  have hv : actionValidate now body = .error "Nova data deve ser no futuro" := by
    unfold actionValidate
    rw [if_neg (by simp [haction]), if_pos haction, hnd]
    simp [hpast]
  unfold viewRemarcar
  rw [hv]

/-- C10 witness: the concrete reschedule request for minute 50 at
`now = 100` is refused with the table unchanged. -/
theorem remarcar_past_rejected_witness :
    viewRemarcar profA 100 60 baseConsulta [baseConsulta]
        ⟨ActionChoice.remarcar, none, some 50, none⟩ =
      ([baseConsulta], ⟨400, "Nova data deve ser no futuro"⟩) :=
  remarcar_past_rejected profA 100 60 baseConsulta [baseConsulta]
    ⟨ActionChoice.remarcar, none, some 50, none⟩ 50 rfl rfl (by decide)

end LacreiSaude
